import Mathlib

/-!
Formal model (shallow embedding) of the `husqvarna_automower_ble` Home Assistant
custom integration (files `coordinator.py`, `entity.py`, `lawn_mower.py`,
`sensor.py`, `const.py`).

Python dictionaries are modelled as association lists `List (String × Option PyVal)`
(a value of `Option.none` is Python's `None`).  Awaitable library calls are modelled
by their outcome: `Except BleErr v` where `BleErr` stands for the `TimeoutError` and
`BleakError` exception classes.  Exception propagation is modelled with `Except`;
a Python `try/except` block becomes a `match` on the `Except` value.
-/

namespace Automower

/-- Mower state enum of the external `husqvarna_automower_ble.protocol` library.
The integration references `OFF`, `WAIT_FOR_SAFETYPIN`, `STOPPED`, `PENDING_START`,
`PAUSED`, `IN_OPERATION` and `RESTRICTED`; `FATAL_ERROR` and `ERROR` are further
members of the library enum, included so that "every remaining case" is non-empty. -/
inductive MowerState where
  | OFF
  | WAIT_FOR_SAFETYPIN
  | STOPPED
  | FATAL_ERROR
  | PENDING_START
  | PAUSED
  | IN_OPERATION
  | RESTRICTED
  | ERROR
  deriving DecidableEq, Repr, Fintype

/-- Mower activity enum of the external `husqvarna_automower_ble.protocol` library.
The integration references `NONE`, `CHARGING`, `GOING_OUT`, `MOWING`, `GOING_HOME`
and `PARKED`; `STOPPED_IN_GARDEN` is a further member of the library enum. -/
inductive MowerActivity where
  | NONE
  | CHARGING
  | GOING_OUT
  | MOWING
  | GOING_HOME
  | PARKED
  | STOPPED_IN_GARDEN
  deriving DecidableEq, Repr, Fintype

/-- User-facing activity enum of Home Assistant's lawn-mower platform. -/
inductive LawnMowerActivity where
  | ERROR
  | PAUSED
  | MOWING
  | DOCKED
  | RETURNING
  deriving DecidableEq, Repr, Fintype

/-- The two fields of the coordinator data dict that `_get_activity` reads
(`data["state"]` and `data["activity"]`); each may be Python `None`. -/
structure MowerData where
  state : Option MowerState
  activity : Option MowerActivity
  deriving DecidableEq, Repr

/-- Embedding of `AutomowerLawnMower._get_activity` (lawn_mower.py, lines 76-111).
The argument is `self.coordinator.data`, `none` when the coordinator has no data. -/
def getActivity (data : Option MowerData) : Option LawnMowerActivity :=
  match data with
  | none => none
  | some d =>
    match d.state, d.activity with
    | none, _ => none
    | some _, none => none
    | some state, some activity =>
      if state = MowerState.PAUSED then
        some LawnMowerActivity.PAUSED
      else if state = MowerState.STOPPED ∨ state = MowerState.OFF ∨
          state = MowerState.WAIT_FOR_SAFETYPIN then
        some LawnMowerActivity.ERROR
      else if state = MowerState.PENDING_START ∧ activity = MowerActivity.NONE then
        some LawnMowerActivity.ERROR
      else if state = MowerState.RESTRICTED ∨ state = MowerState.IN_OPERATION ∨
          state = MowerState.PENDING_START then
        if activity = MowerActivity.CHARGING ∨ activity = MowerActivity.PARKED ∨
            activity = MowerActivity.NONE then
          some LawnMowerActivity.DOCKED
        else if activity = MowerActivity.GOING_OUT ∨ activity = MowerActivity.MOWING then
          some LawnMowerActivity.MOWING
        else if activity = MowerActivity.GOING_HOME then
          some LawnMowerActivity.RETURNING
        else
          some LawnMowerActivity.ERROR
      else
        some LawnMowerActivity.ERROR

/-- The activity mapping exactly as claim C1 words it, written independently of
`getActivity` for comparison: PAUSED when state is PAUSED; ERROR when state is
STOPPED, OFF or WAIT_FOR_SAFETYPIN; ERROR when state is PENDING_START and activity
is NONE; otherwise for RESTRICTED, IN_OPERATION or PENDING_START: DOCKED on
CHARGING, PARKED or NONE, MOWING on GOING_OUT or MOWING, RETURNING on GOING_HOME;
ERROR in every remaining case. -/
def claimActivityMap (state : MowerState) (activity : MowerActivity) : LawnMowerActivity :=
  if state = MowerState.PAUSED then
    LawnMowerActivity.PAUSED
  else if state = MowerState.STOPPED ∨ state = MowerState.OFF ∨
      state = MowerState.WAIT_FOR_SAFETYPIN then
    LawnMowerActivity.ERROR
  else if state = MowerState.PENDING_START ∧ activity = MowerActivity.NONE then
    LawnMowerActivity.ERROR
  else if state = MowerState.RESTRICTED ∨ state = MowerState.IN_OPERATION ∨
      state = MowerState.PENDING_START then
    if activity = MowerActivity.CHARGING ∨ activity = MowerActivity.PARKED ∨
        activity = MowerActivity.NONE then
      LawnMowerActivity.DOCKED
    else if activity = MowerActivity.GOING_OUT ∨ activity = MowerActivity.MOWING then
      LawnMowerActivity.MOWING
    else if activity = MowerActivity.GOING_HOME then
      LawnMowerActivity.RETURNING
    else
      LawnMowerActivity.ERROR
  else
    LawnMowerActivity.ERROR

/-- Library commands the lawn-mower entity can issue through
`coordinator.async_execute_command` (lawn_mower.py, lines 130-217). -/
inductive MowerCmd where
  | resume
  | override
  | park
  | parkIndefinitely
  | pause
  | auto
  deriving DecidableEq, Repr

/-- One statement executed by a UI command handler of `AutomowerLawnMower`.
`exec c` is `await self.coordinator.async_execute_command(self.coordinator.mower.<c>)`
(`async_execute_command` is not among the files of this integration; modelled from
the spec: it translates the UI action into the given library call); `sleep` is
`await asyncio.sleep(1)`; `requestRefresh` is
`await self.coordinator.async_request_refresh()`; `recomputeActivity` is
`self._attr_activity = self._get_activity()`; `writeHaState` is
`self.async_write_ha_state()`; `logError` is the `LOGGER.error` call of the
`except Exception` clause. -/
inductive Step where
  | exec (c : MowerCmd)
  | sleep
  | requestRefresh
  | recomputeActivity
  | writeHaState
  | logError
  deriving DecidableEq, Repr

/-- Sequence of statements inside the `try` block of `async_start_mowing`
(lawn_mower.py, lines 130-151): `mower_resume`, then `mower_override` exactly when
`self._attr_activity == LawnMowerActivity.DOCKED`, then sleep, refresh, recompute,
write state. -/
def startMowingBody (curActivity : Option LawnMowerActivity) : List Step :=
  [Step.exec MowerCmd.resume] ++
    (if curActivity = some LawnMowerActivity.DOCKED
      then [Step.exec MowerCmd.override] else []) ++
    [Step.sleep, Step.requestRefresh, Step.recomputeActivity, Step.writeHaState]

/-- Sequence of statements inside the `try` block of `async_dock`. -/
def dockBody : List Step :=
  [Step.exec MowerCmd.park, Step.sleep, Step.requestRefresh,
    Step.recomputeActivity, Step.writeHaState]

/-- Sequence of statements inside the `try` block of `async_pause`. -/
def pauseBody : List Step :=
  [Step.exec MowerCmd.pause, Step.sleep, Step.requestRefresh,
    Step.recomputeActivity, Step.writeHaState]

/-- Sequence of statements inside the `try` block of `async_park_indefinitely`. -/
def parkIndefinitelyBody : List Step :=
  [Step.exec MowerCmd.parkIndefinitely, Step.sleep, Step.requestRefresh,
    Step.recomputeActivity, Step.writeHaState]

/-- Sequence of statements inside the `try` block of `async_resume_schedule`. -/
def resumeScheduleBody : List Step :=
  [Step.exec MowerCmd.auto, Step.sleep, Step.requestRefresh,
    Step.recomputeActivity, Step.writeHaState]

/-- Run the statements of a `try` block in order.  `fail s = true` means statement
`s` raises an exception.  Returns the statements executed to completion and whether
an exception was raised (execution stops at the first raising statement). -/
def runSteps (fail : Step → Bool) : List Step → List Step × Bool
  | [] => ([], false)
  | s :: rest =>
    if fail s then ([], true)
    else
      let (tr, raised) := runSteps fail rest
      (s :: tr, raised)

/-- Embedding of a handler's `try: <body> except Exception as ex: LOGGER.error(...)`
shape: the body runs until its first raising statement; a raised exception is
caught and answered by the single `LOGGER.error` call; nothing re-raises and
nothing is retried.  The result is the full executed trace; the handler itself
always returns normally. -/
def tryLogSteps (fail : Step → Bool) (body : List Step) : List Step :=
  match runSteps fail body with
  | (tr, true) => tr ++ [Step.logError]
  | (tr, false) => tr

/-- Embedding of `AutomowerLawnMower.async_start_mowing`: executed trace given the
entity's current `_attr_activity` and the exception oracle `fail`. -/
def asyncStartMowing (curActivity : Option LawnMowerActivity)
    (fail : Step → Bool) : List Step :=
  tryLogSteps fail (startMowingBody curActivity)

/-- Embedding of `AutomowerLawnMower.async_dock`. -/
def asyncDock (fail : Step → Bool) : List Step := tryLogSteps fail dockBody

/-- Embedding of `AutomowerLawnMower.async_pause`. -/
def asyncPause (fail : Step → Bool) : List Step := tryLogSteps fail pauseBody

/-- Embedding of `AutomowerLawnMower.async_park_indefinitely`. -/
def asyncParkIndefinitely (fail : Step → Bool) : List Step :=
  tryLogSteps fail parkIndefinitelyBody

/-- Embedding of `AutomowerLawnMower.async_resume_schedule`. -/
def asyncResumeSchedule (fail : Step → Bool) : List Step :=
  tryLogSteps fail resumeScheduleBody

/-- Values stored in the coordinator data dict.  Times are in seconds. -/
inductive PyVal where
  | vInt (n : Int)
  | vBool (b : Bool)
  | vState (s : MowerState)
  | vActivity (a : MowerActivity)
  | vStr (s : String)
  | vTime (t : Int)
  deriving DecidableEq, Repr

/-- A Python dict with string keys; a value `Option.none` is Python's `None`. -/
abbrev Dict := List (String × Option PyVal)

/-- Python dict item lookup `d[k]`: `none` means the key is absent (`KeyError`). -/
def dlookup : Dict → String → Option (Option PyVal)
  | [], _ => none
  | (k', v) :: rest, k => if k' = k then some v else dlookup rest k

/-- Python dict item assignment `d[k] = v`: replaces in place or appends. -/
def dictInsert : Dict → String → Option PyVal → Dict
  | [], k, v => [(k, v)]
  | (k', v') :: rest, k, v =>
    if k' = k then (k, v) :: rest else (k', v') :: dictInsert rest k v

/-- Python `d.update(u)`: item assignment for each pair of `u` in order. -/
def dictUpdate (d : Dict) (u : Dict) : Dict :=
  u.foldl (fun acc p => dictInsert acc p.1 p.2) d

/-- Embedding of `HusqvarnaAutomowerBleEntity.available` (entity.py, lines 36-43):
false when `_last_successful_update` is `None`, else true exactly when
`datetime.now() - _last_successful_update < timedelta(minutes=12)`.
Times are integer seconds. -/
def entityAvailable (lastSuccessfulUpdate : Option Int) (now : Int) : Bool :=
  match lastSuccessfulUpdate with
  | none => false
  | some t => decide (now - t < 12 * 60)

/-- Embedding of the identically written `HusqvarnaAutomowerBleEntity.available`
duplicated in coordinator.py (lines 128-136), also a 12-minute window. -/
def coordEntityAvailable (lastSuccessfulUpdate : Option Int) (now : Int) : Bool :=
  match lastSuccessfulUpdate with
  | none => false
  | some t => decide (now - t < 12 * 60)

/-- Embedding of `AutomowerSensorEntity.available` (sensor.py, lines 237-243):
false when `_last_successful_update` is `None`, else true exactly when the last
successful update is less than 10 minutes old. -/
def sensorAvailable (lastSuccessfulUpdate : Option Int) (now : Int) : Bool :=
  match lastSuccessfulUpdate with
  | none => false
  | some t => decide (now - t < 10 * 60)

/-- Result of reading a sensor: the value the property returns, whether the
`KeyError` branch logged an error, and the value `_attr_available` was set to
(`none` when the assignment to `_attr_available` was never reached). -/
structure SensorRead where
  returned : Option PyVal
  loggedKeyError : Bool
  attrAvailable : Option Bool
  deriving DecidableEq, Repr

/-- Embedding of the `AutomowerSensorEntity.state` property (sensor.py, lines
215-235): `_attr_native_value = None`; then `try` reads
`self.coordinator.data[self.entity_description.key]`, sets `_attr_available` to
whether the value is not `None`, and returns the value; `except KeyError` logs an
error and returns `None` with `_attr_available` untouched. -/
def sensorState (data : Dict) (key : String) : SensorRead :=
  match dlookup data key with
  | some v => ⟨v, false, some v.isSome⟩
  | none => ⟨none, true, none⟩

/-- Embedding of `AutomowerSensorEntity._update_attr` (sensor.py, lines 281-301),
whose body is identical to the `state` property. -/
def updateAttr (data : Dict) (key : String) : SensorRead :=
  match dlookup data key with
  | some v => ⟨v, false, some v.isSome⟩
  | none => ⟨none, true, none⟩

/-- The `TimeoutError` and `BleakError` exception classes. -/
inductive BleErr where
  | timeout
  | bleak
  deriving DecidableEq, Repr

/-- Exceptions that can travel through `_async_update_data`: a `TimeoutError` or
`BleakError` from a library call, or the framework's `UpdateFailed`. -/
inductive PyErr where
  | ble (e : BleErr)
  | updateFailed
  deriving DecidableEq, Repr

/-- Externally observable connection-lifecycle events of a poll. -/
inductive Event where
  | closeStale
  | connectAttempt
  | disconnected
  deriving DecidableEq, Repr

/-- Outcome of one poll's environment: what each awaited library call would return
or raise, whether `mower.is_connected()` holds, and whether the Bluetooth stack
finds a device for the configured address. -/
structure PollEnv where
  isConnected : Bool
  deviceFound : Bool
  connectRes : Except BleErr Bool
  batteryLevel : Except BleErr (Option PyVal)
  isCharging : Except BleErr (Option PyVal)
  mowerMode : Except BleErr (Option PyVal)
  mowerState : Except BleErr (Option PyVal)
  mowerActivity : Except BleErr (Option PyVal)
  mowerError : Except BleErr (Option PyVal)
  nextStartTime : Except BleErr (Option PyVal)
  statistics : Except BleErr Dict
  disconnectRes : Except BleErr Unit
  deriving Repr

/-- Coordinator state threaded through a poll: emitted lifecycle events and the
`_last_successful_update` timestamp. -/
abbrev CoordSt := List Event × Option Int

/-- Poll computations: state-threading with exception propagation; an exception
carries the state at the point it was raised. -/
abbrev PollM (α : Type) := CoordSt → Except (PyErr × CoordSt) (α × CoordSt)

def pollPure (a : α) : PollM α := fun s => Except.ok (a, s)

def pollBind (m : PollM α) (f : α → PollM β) : PollM β := fun s =>
  match m s with
  | Except.ok (a, s') => f a s'
  | Except.error e => Except.error e

instance : Monad PollM where
  pure := pollPure
  bind := pollBind

/-- Record a lifecycle event. -/
def emit (e : Event) : PollM Unit := fun s => Except.ok ((), (s.1 ++ [e], s.2))

/-- Await a library call: its `TimeoutError`/`BleakError` propagates as an
exception. -/
def awaitBle (r : Except BleErr α) : PollM α := fun s =>
  match r with
  | Except.ok a => Except.ok (a, s)
  | Except.error e => Except.error (PyErr.ble e, s)

/-- `raise UpdateFailed(...)`. -/
def raiseUpdateFailed : PollM α := fun s => Except.error (PyErr.updateFailed, s)

/-- `self._last_successful_update = datetime.now()`. -/
def setLastUpdate (now : Int) : PollM Unit := fun s => Except.ok ((), (s.1, some now))

/-- `try: <m> except (TimeoutError, BleakError) as ex: raise UpdateFailed(...) from ex`:
a Bluetooth exception is converted to `UpdateFailed`; anything else passes through. -/
def catchBle (m : PollM α) : PollM α := fun s =>
  match m s with
  | Except.error (PyErr.ble _, s') => Except.error (PyErr.updateFailed, s')
  | r => r

/-- Embedding of `HusqvarnaCoordinator._async_find_device` (coordinator.py, lines
63-81): close stale connections, look the BLE device up by address and raise
`UpdateFailed` when none is found; then `try` to connect, raising `UpdateFailed`
when `mower.connect` returns false or raises `TimeoutError`/`BleakError`. -/
def findDeviceM (env : PollEnv) : PollM Unit := do
  emit Event.closeStale
  if env.deviceFound = false then
    raiseUpdateFailed
  else
    catchBle (do
      emit Event.connectAttempt
      let ok ← awaitBle env.connectRes
      if ok = false then raiseUpdateFailed else pure ())

/-- Statements of `_async_update_data` after the reconnect check (coordinator.py,
lines 91-111): fetch the seven data fields into the dict in order, merge the
statistics dict, set `_last_successful_update = datetime.now()`, disconnect,
return the dict. -/
def fetchAndStore (env : PollEnv) (now : Int) : PollM Dict := do
  let battery ← awaitBle env.batteryLevel
  let charging ← awaitBle env.isCharging
  let mode ← awaitBle env.mowerMode
  let state ← awaitBle env.mowerState
  let activity ← awaitBle env.mowerActivity
  let merror ← awaitBle env.mowerError
  let nextStart ← awaitBle env.nextStartTime
  let data := dictInsert (dictInsert (dictInsert (dictInsert (dictInsert
    (dictInsert (dictInsert [] "battery_level" battery) "is_charging" charging)
    "mode" mode) "state" state) "activity" activity) "error" merror)
    "next_start_time" nextStart
  let stats ← awaitBle env.statistics
  let data := dictUpdate data stats
  setLastUpdate now
  awaitBle env.disconnectRes
  emit Event.disconnected
  pure data

/-- Embedding of `HusqvarnaCoordinator._async_update_data` (coordinator.py, lines
83-116): inside `try`, reconnect via `_async_find_device` only when
`mower.is_connected()` is false, then run the fetch/store sequence;
`except (TimeoutError, BleakError)` raises `UpdateFailed`. -/
def updateDataM (env : PollEnv) (now : Int) : PollM Dict :=
  catchBle (do
    if env.isConnected = false then findDeviceM env else pure ()
    fetchAndStore env now)

/-- Run one poll from a given `_last_successful_update` value at time `now`:
the raised exception or returned dict, the lifecycle events, and the new
`_last_successful_update`. -/
def asyncUpdateData (env : PollEnv) (lastUpdate : Option Int) (now : Int) :
    Except PyErr Dict × List Event × Option Int :=
  match updateDataM env now ([], lastUpdate) with
  | Except.ok (d, s) => (Except.ok d, s.1, s.2)
  | Except.error (e, s) => (Except.error e, s.1, s.2)

/-- Run `_async_find_device` on its own. -/
def asyncFindDevice (env : PollEnv) : Except PyErr Unit :=
  match findDeviceM env ([], none) with
  | Except.ok _ => Except.ok ()
  | Except.error (e, _) => Except.error e

/-- The connection phase succeeds: already connected, or a device is found and
`mower.connect` returns true. -/
def connPhaseOk (env : PollEnv) : Prop :=
  env.isConnected = true ∨
    (env.deviceFound = true ∧ env.connectRes = Except.ok true)

/-- Whether an awaited call succeeded. -/
def exceptOk : Except ε α → Bool
  | Except.ok _ => true
  | Except.error _ => false

/-- Every data-field and statistics fetch of the poll body succeeds (the eight
awaited calls before the final disconnect). -/
def fetchCallsOk (env : PollEnv) : Prop :=
  exceptOk env.batteryLevel = true ∧ exceptOk env.isCharging = true ∧
    exceptOk env.mowerMode = true ∧ exceptOk env.mowerState = true ∧
    exceptOk env.mowerActivity = true ∧ exceptOk env.mowerError = true ∧
    exceptOk env.nextStartTime = true ∧ exceptOk env.statistics = true

/-- Every awaited call of the poll body succeeds, the final disconnect included. -/
def allCallsOk (env : PollEnv) : Prop :=
  fetchCallsOk env ∧ exceptOk env.disconnectRes = true

/-- Lifecycle events emitted by the connection phase of a poll. -/
def connTrace (env : PollEnv) : List Event :=
  if env.isConnected = true then []
  else [Event.closeStale, Event.connectAttempt]

/-- One `SensorEntityDescription` of the `MOWER_SENSORS` table (sensor.py).
Units, device classes, state classes and entity categories are recorded as the
strings Home Assistant uses for them. -/
structure SensorDescription where
  name : String
  key : String
  unitOfMeasurement : Option String
  deviceClass : Option String
  stateClass : Option String
  entityCategory : Option String
  icon : String
  deriving DecidableEq, Repr

/-- The `MOWER_SENSORS` descriptor table (sensor.py, lines 30-157), one entry per
diagnostic sensor, transcribed in order. -/
def MOWER_SENSORS : List SensorDescription :=
  [⟨"Battery Level", "battery_level", some "%", some "battery", some "measurement",
      none, "mdi:battery"⟩,
    ⟨"Is Charging", "is_charging", none, some "enum", none, none, "mdi:power-plug"⟩,
    ⟨"Mode", "mode", none, some "enum", none, none, "mdi:robot"⟩,
    ⟨"State", "state", none, some "enum", none, none, "mdi:state-machine"⟩,
    ⟨"Activity", "activity", none, some "enum", none, none, "mdi:run"⟩,
    ⟨"Error", "error", none, some "enum", none, none, "mdi:alert-circle"⟩,
    ⟨"Next Start Time", "next_start_time", none, some "timestamp", none, none,
      "mdi:timer"⟩,
    ⟨"Total running time", "totalRunningTime", some "s", some "duration",
      some "total", some "diagnostic", "mdi:timer"⟩,
    ⟨"Total cutting time", "totalCuttingTime", some "s", some "duration",
      some "total", some "diagnostic", "mdi:timer"⟩,
    ⟨"Total charging time", "totalChargingTime", some "s", some "duration",
      some "total", some "diagnostic", "mdi:timer"⟩,
    ⟨"Total searching time", "totalSearchingTime", some "s", some "duration",
      some "total", some "diagnostic", "mdi:timer"⟩,
    ⟨"Total number of collisions", "numberOfCollisions", none, none,
      some "total", some "diagnostic", "mdi:alert-circle"⟩,
    ⟨"Total number of charging cycles", "numberOfChargingCycles", none, none,
      some "total", some "diagnostic", "mdi:repeat-variant"⟩,
    ⟨"Total cutting blade usage", "cuttingBladeUsageTime", some "s",
      some "duration", some "total", some "diagnostic", "mdi:blade"⟩]

/-- A registered sensor entity: its unique id and its descriptor. -/
structure SensorEntityModel where
  uniqueId : String
  description : SensorDescription
  deriving DecidableEq, Repr

/-- Embedding of sensor.py's `async_setup_entry` (lines 160-176): one
`AutomowerSensorEntity` per `MOWER_SENSORS` descriptor, each constructed with
`mower_id = "automower_" + format_mac(coordinator.address)` and
`_attr_unique_id = f"{mower_id}_{description.key}"`.  `formattedMac` stands for
`format_mac(coordinator.address)`, computed by a Home Assistant helper. -/
def sensorSetupEntry (formattedMac : String) : List SensorEntityModel :=
  MOWER_SENSORS.map (fun d =>
    ⟨("automower_" ++ formattedMac) ++ "_" ++ d.key, d⟩)

/-- Embedding of lawn_mower.py's `async_setup_entry` (lines 26-54): the unique ids
of the lawn-mower entities it registers — a single `AutomowerLawnMower` whose
`_attr_unique_id = str(address)`, which for the string-valued address is the
address itself. -/
def lawnMowerSetupEntry (address : String) : List String :=
  [address]

/-- A concrete poll environment: not yet connected, device found, connect
succeeds, every call succeeds. -/
def okEnv : PollEnv where
  isConnected := false
  deviceFound := true
  connectRes := Except.ok true
  batteryLevel := Except.ok (some (PyVal.vInt 88))
  isCharging := Except.ok (some (PyVal.vBool true))
  mowerMode := Except.ok (some (PyVal.vInt 1))
  mowerState := Except.ok (some (PyVal.vState MowerState.RESTRICTED))
  mowerActivity := Except.ok (some (PyVal.vActivity MowerActivity.CHARGING))
  mowerError := Except.ok none
  nextStartTime := Except.ok (some (PyVal.vTime 3600))
  statistics := Except.ok [("totalRunningTime", some (PyVal.vInt 10)),
    ("numberOfCollisions", some (PyVal.vInt 2))]
  disconnectRes := Except.ok ()

/-- The same environment with the mower already connected. -/
def okEnvConnected : PollEnv := { okEnv with isConnected := true }

/-- A concrete poll environment where everything is fetched successfully and only
the final disconnect raises a `BleakError`. -/
def disconnectFailEnv : PollEnv := { okEnv with
  isConnected := true
  disconnectRes := Except.error BleErr.bleak }

/-- C1: for every pair of non-None device enums, `_get_activity` returns exactly
the single user-facing value described by the claim (`claimActivityMap`), and it
returns None precisely when the coordinator has no data or the state or the
activity field is None. -/
theorem getActivity_matches_claim :
    (∀ (s : MowerState) (a : MowerActivity),
      getActivity (some ⟨some s, some a⟩) = some (claimActivityMap s a)) ∧
    getActivity none = none ∧
    (∀ (s : Option MowerState) (a : Option MowerActivity),
      getActivity (some ⟨s, a⟩) = none ↔ (s = none ∨ a = none)) := by
  refine ⟨?_, rfl, ?_⟩
  · decide
  · decide

/-- Auxiliary characterization of `runSteps`: the executed statements are the
longest non-raising prefix, and an exception is raised precisely when some
statement of the body raises. -/
theorem runSteps_eq (fail : Step → Bool) (body : List Step) :
    runSteps fail body = (body.takeWhile (fun s => !fail s), body.any fail) := by
  induction body with
  | nil => rfl
  | cons s rest ih =>
    by_cases h : fail s = true
    · simp [runSteps, h, List.takeWhile, List.any]
    · simp only [Bool.not_eq_true] at h
      simp [runSteps, h, List.takeWhile, List.any, ih]

/-- C3: with no exception raised, each UI handler issues exactly the corresponding
library command — `pause` issues `mower_pause`, `dock` issues `mower_park`,
park-indefinitely issues `mower_park_indefinitely`, resume-schedule issues
`mower_auto`, and start-mowing issues `mower_resume` followed by `mower_override`
exactly when the entity's current activity is DOCKED — and each handler then
requests a data refresh and recomputes the entity's activity. -/
theorem handlers_translate_ui_actions (curActivity : Option LawnMowerActivity) :
    asyncStartMowing curActivity (fun _ => false) =
      [Step.exec MowerCmd.resume] ++
        (if curActivity = some LawnMowerActivity.DOCKED
          then [Step.exec MowerCmd.override] else []) ++
        [Step.sleep, Step.requestRefresh, Step.recomputeActivity, Step.writeHaState] ∧
    (Step.exec MowerCmd.override ∈ asyncStartMowing curActivity (fun _ => false) ↔
      curActivity = some LawnMowerActivity.DOCKED) ∧
    asyncDock (fun _ => false) =
      [Step.exec MowerCmd.park, Step.sleep, Step.requestRefresh,
        Step.recomputeActivity, Step.writeHaState] ∧
    asyncPause (fun _ => false) =
      [Step.exec MowerCmd.pause, Step.sleep, Step.requestRefresh,
        Step.recomputeActivity, Step.writeHaState] ∧
    asyncParkIndefinitely (fun _ => false) =
      [Step.exec MowerCmd.parkIndefinitely, Step.sleep, Step.requestRefresh,
        Step.recomputeActivity, Step.writeHaState] ∧
    asyncResumeSchedule (fun _ => false) =
      [Step.exec MowerCmd.auto, Step.sleep, Step.requestRefresh,
        Step.recomputeActivity, Step.writeHaState] := by
  rcases curActivity with _ | a
  · exact ⟨by decide, by decide, by decide, by decide, by decide, by decide⟩
  · cases a <;>
      exact ⟨by decide, by decide, by decide, by decide, by decide, by decide⟩

/-- C4: for every exception oracle, every UI handler returns normally with the
executed trace equal to the longest non-raising prefix of its body, followed by
exactly one error-log step when some statement raised: every exception is caught
and logged, none propagates (the handlers are total functions into traces), and
nothing after the raising statement — in particular no retry — is executed. -/
theorem handlers_catch_and_log (curActivity : Option LawnMowerActivity)
    (fail : Step → Bool) :
    asyncStartMowing curActivity fail =
      (startMowingBody curActivity).takeWhile (fun s => !fail s) ++
        (if (startMowingBody curActivity).any fail then [Step.logError] else []) ∧
    asyncDock fail = dockBody.takeWhile (fun s => !fail s) ++
      (if dockBody.any fail then [Step.logError] else []) ∧
    asyncPause fail = pauseBody.takeWhile (fun s => !fail s) ++
      (if pauseBody.any fail then [Step.logError] else []) ∧
    asyncParkIndefinitely fail = parkIndefinitelyBody.takeWhile (fun s => !fail s) ++
      (if parkIndefinitelyBody.any fail then [Step.logError] else []) ∧
    asyncResumeSchedule fail = resumeScheduleBody.takeWhile (fun s => !fail s) ++
      (if resumeScheduleBody.any fail then [Step.logError] else []) := by
  have htl : ∀ body : List Step, tryLogSteps fail body =
      body.takeWhile (fun s => !fail s) ++
        (if body.any fail then [Step.logError] else []) := by
    intro body
    rw [tryLogSteps, runSteps_eq]
    by_cases h : body.any fail = true
    · simp [h]
    · simp only [Bool.not_eq_true] at h
      simp [h]
  exact ⟨htl _, htl _, htl _, htl _, htl _⟩

/-- C9: every entity reports unavailable while no poll has ever succeeded; once one
has, the lawn-mower/descriptor entities (entity.py and the duplicate class in
coordinator.py) are available iff the last successful update is less than
12 minutes old, while sensor entities use a 10-minute window. -/
theorem availability_windows (now t : Int) :
    entityAvailable none now = false ∧
    coordEntityAvailable none now = false ∧
    sensorAvailable none now = false ∧
    (entityAvailable (some t) now = true ↔ now - t < 12 * 60) ∧
    (coordEntityAvailable (some t) now = true ↔ now - t < 12 * 60) ∧
    (sensorAvailable (some t) now = true ↔ now - t < 10 * 60) := by
  refine ⟨rfl, rfl, rfl, ?_, ?_, ?_⟩ <;>
    simp [entityAvailable, coordEntityAvailable, sensorAvailable]

/-- C10: when the descriptor key is absent from the coordinator data dict, both the
`state` property and `_update_attr` catch the `KeyError`, log an error, leave the
native value `None` and return `None` (no exception escapes: both are total
functions of the dict). -/
theorem sensor_read_missing_key (data : Dict) (key : String)
    (h : dlookup data key = none) :
    sensorState data key = ⟨none, true, none⟩ ∧
    updateAttr data key = ⟨none, true, none⟩ := by
  constructor <;> simp [sensorState, updateAttr, h]

/-- Concrete instance of `sensor_read_missing_key`: the empty dict and the
`battery_level` key. -/
theorem sensor_read_missing_key_witness :
    sensorState [] "battery_level" = ⟨none, true, none⟩ ∧
    updateAttr [] "battery_level" = ⟨none, true, none⟩ :=
  sensor_read_missing_key [] "battery_level" rfl

lemma exceptOk_iff {ε α : Type} (r : Except ε α) :
    exceptOk r = true ↔ ∃ v, r = Except.ok v := by
  cases r <;> simp [exceptOk]

lemma pollM_bind_def {α β : Type} (m : PollM α) (f : α → PollM β) :
    m >>= f = pollBind m f := rfl

lemma pollM_pure_def {α : Type} (a : α) : (pure a : PollM α) = pollPure a := rfl

lemma fetchAndStore_ok (env : PollEnv) (now : Int) (tr : List Event)
    (l : Option Int) (bv cv mv sv av ev nv : Option PyVal) (stv : Dict)
    (hb : env.batteryLevel = Except.ok bv) (hch : env.isCharging = Except.ok cv)
    (hmo : env.mowerMode = Except.ok mv) (hst : env.mowerState = Except.ok sv)
    (hac : env.mowerActivity = Except.ok av) (her : env.mowerError = Except.ok ev)
    (hns : env.nextStartTime = Except.ok nv) (hstats : env.statistics = Except.ok stv)
    (hd : env.disconnectRes = Except.ok ()) :
    fetchAndStore env now (tr, l) =
      Except.ok (dictUpdate
        [("battery_level", bv), ("is_charging", cv), ("mode", mv), ("state", sv),
          ("activity", av), ("error", ev), ("next_start_time", nv)] stv,
        (tr ++ [Event.disconnected], some now)) := by
  simp only [fetchAndStore, hb, hch, hmo, hst, hac, her, hns, hstats, hd]
  rfl

lemma fetchAndStore_fail_pre (env : PollEnv) (now : Int) (tr : List Event)
    (l : Option Int) (h : ¬ fetchCallsOk env) :
    ∃ e, fetchAndStore env now (tr, l) = Except.error (PyErr.ble e, (tr, l)) := by
  rcases hb : env.batteryLevel with e | bv
  · exact ⟨e, by simp only [fetchAndStore, hb]; rfl⟩
  rcases hch : env.isCharging with e | cv
  · exact ⟨e, by simp only [fetchAndStore, hb, hch]; rfl⟩
  rcases hmo : env.mowerMode with e | mv
  · exact ⟨e, by simp only [fetchAndStore, hb, hch, hmo]; rfl⟩
  rcases hst : env.mowerState with e | sv
  · exact ⟨e, by simp only [fetchAndStore, hb, hch, hmo, hst]; rfl⟩
  rcases hac : env.mowerActivity with e | av
  · exact ⟨e, by simp only [fetchAndStore, hb, hch, hmo, hst, hac]; rfl⟩
  rcases her : env.mowerError with e | ev
  · exact ⟨e, by simp only [fetchAndStore, hb, hch, hmo, hst, hac, her]; rfl⟩
  rcases hns : env.nextStartTime with e | nv
  · exact ⟨e, by simp only [fetchAndStore, hb, hch, hmo, hst, hac, her, hns]; rfl⟩
  rcases hstats : env.statistics with e | stv
  · exact ⟨e, by simp only [fetchAndStore, hb, hch, hmo, hst, hac, her, hns, hstats]; rfl⟩
  exact absurd
    ⟨by rw [hb]; rfl, by rw [hch]; rfl, by rw [hmo]; rfl, by rw [hst]; rfl,
      by rw [hac]; rfl, by rw [her]; rfl, by rw [hns]; rfl, by rw [hstats]; rfl⟩ h

lemma fetchAndStore_fail_disconnect (env : PollEnv) (now : Int) (tr : List Event)
    (l : Option Int) (bv cv mv sv av ev nv : Option PyVal) (stv : Dict) (e : BleErr)
    (hb : env.batteryLevel = Except.ok bv) (hch : env.isCharging = Except.ok cv)
    (hmo : env.mowerMode = Except.ok mv) (hst : env.mowerState = Except.ok sv)
    (hac : env.mowerActivity = Except.ok av) (her : env.mowerError = Except.ok ev)
    (hns : env.nextStartTime = Except.ok nv) (hstats : env.statistics = Except.ok stv)
    (hd : env.disconnectRes = Except.error e) :
    fetchAndStore env now (tr, l) =
      Except.error (PyErr.ble e, (tr, some now)) := by
  simp only [fetchAndStore, hb, hch, hmo, hst, hac, her, hns, hstats, hd]
  rfl

lemma findDeviceM_notFound (env : PollEnv) (h : env.deviceFound = false)
    (tr : List Event) (l : Option Int) :
    findDeviceM env (tr, l) =
      Except.error (PyErr.updateFailed, (tr ++ [Event.closeStale], l)) := by
  simp only [findDeviceM, h]
  rfl

lemma findDeviceM_connect_true (env : PollEnv) (hdf : env.deviceFound = true)
    (hc : env.connectRes = Except.ok true) (tr : List Event) (l : Option Int) :
    findDeviceM env (tr, l) =
      Except.ok ((), (tr ++ [Event.closeStale] ++ [Event.connectAttempt], l)) := by
  simp only [findDeviceM, hdf, hc]
  rfl

lemma findDeviceM_connect_false (env : PollEnv) (hdf : env.deviceFound = true)
    (hc : env.connectRes = Except.ok false) (tr : List Event) (l : Option Int) :
    findDeviceM env (tr, l) =
      Except.error (PyErr.updateFailed,
        (tr ++ [Event.closeStale] ++ [Event.connectAttempt], l)) := by
  simp only [findDeviceM, hdf, hc]
  rfl

lemma findDeviceM_connect_err (env : PollEnv) (e : BleErr)
    (hdf : env.deviceFound = true) (hc : env.connectRes = Except.error e)
    (tr : List Event) (l : Option Int) :
    findDeviceM env (tr, l) =
      Except.error (PyErr.updateFailed,
        (tr ++ [Event.closeStale] ++ [Event.connectAttempt], l)) := by
  simp only [findDeviceM, hdf, hc]
  rfl

lemma poll_ok_connected (env : PollEnv) (last : Option Int) (now : Int)
    (bv cv mv sv av ev nv : Option PyVal) (stv : Dict)
    (hic : env.isConnected = true)
    (hb : env.batteryLevel = Except.ok bv) (hch : env.isCharging = Except.ok cv)
    (hmo : env.mowerMode = Except.ok mv) (hst : env.mowerState = Except.ok sv)
    (hac : env.mowerActivity = Except.ok av) (her : env.mowerError = Except.ok ev)
    (hns : env.nextStartTime = Except.ok nv) (hstats : env.statistics = Except.ok stv)
    (hd : env.disconnectRes = Except.ok ()) :
    asyncUpdateData env last now =
      (Except.ok (dictUpdate
        [("battery_level", bv), ("is_charging", cv), ("mode", mv), ("state", sv),
          ("activity", av), ("error", ev), ("next_start_time", nv)] stv),
        [Event.disconnected], some now) := by
  have hf := fetchAndStore_ok env now [] last bv cv mv sv av ev nv stv
    hb hch hmo hst hac her hns hstats hd
  simp [asyncUpdateData, updateDataM, catchBle, pollM_bind_def, pollBind,
    pollM_pure_def, pollPure, hic, hf]

lemma poll_ok_reconnected (env : PollEnv) (last : Option Int) (now : Int)
    (bv cv mv sv av ev nv : Option PyVal) (stv : Dict)
    (hic : env.isConnected = false) (hdf : env.deviceFound = true)
    (hc : env.connectRes = Except.ok true)
    (hb : env.batteryLevel = Except.ok bv) (hch : env.isCharging = Except.ok cv)
    (hmo : env.mowerMode = Except.ok mv) (hst : env.mowerState = Except.ok sv)
    (hac : env.mowerActivity = Except.ok av) (her : env.mowerError = Except.ok ev)
    (hns : env.nextStartTime = Except.ok nv) (hstats : env.statistics = Except.ok stv)
    (hd : env.disconnectRes = Except.ok ()) :
    asyncUpdateData env last now =
      (Except.ok (dictUpdate
        [("battery_level", bv), ("is_charging", cv), ("mode", mv), ("state", sv),
          ("activity", av), ("error", ev), ("next_start_time", nv)] stv),
        [Event.closeStale, Event.connectAttempt, Event.disconnected], some now) := by
  have hfd := findDeviceM_connect_true env hdf hc [] last
  have hf := fetchAndStore_ok env now [Event.closeStale, Event.connectAttempt] last
    bv cv mv sv av ev nv stv hb hch hmo hst hac her hns hstats hd
  simp [asyncUpdateData, updateDataM, catchBle, pollM_bind_def, pollBind,
    pollM_pure_def, pollPure, hic, hfd, hf]

lemma poll_fail_noConn (env : PollEnv) (last : Option Int) (now : Int)
    (h : ¬ connPhaseOk env) :
    ∃ tr, asyncUpdateData env last now = (Except.error PyErr.updateFailed, tr, last) := by
  have hic : env.isConnected = false := by
    rcases hx : env.isConnected with _ | _
    · rfl
    · exact absurd (Or.inl hx) h
  rcases hdf : env.deviceFound with _ | _
  · have hfd := findDeviceM_notFound env hdf [] last
    exact ⟨[Event.closeStale], by
      simp [asyncUpdateData, updateDataM, catchBle, pollM_bind_def, pollBind,
        pollM_pure_def, pollPure, hic, hfd]⟩
  · rcases hc : env.connectRes with e | b
    · have hfd := findDeviceM_connect_err env e hdf hc [] last
      exact ⟨[Event.closeStale, Event.connectAttempt], by
        simp [asyncUpdateData, updateDataM, catchBle, pollM_bind_def, pollBind,
          pollM_pure_def, pollPure, hic, hfd]⟩
    · rcases b with _ | _
      · have hfd := findDeviceM_connect_false env hdf hc [] last
        exact ⟨[Event.closeStale, Event.connectAttempt], by
          simp [asyncUpdateData, updateDataM, catchBle, pollM_bind_def, pollBind,
            pollM_pure_def, pollPure, hic, hfd]⟩
      · exact absurd (Or.inr ⟨hdf, hc⟩) h

lemma poll_fail_fetch (env : PollEnv) (last : Option Int) (now : Int)
    (hconn : connPhaseOk env) (h : ¬ fetchCallsOk env) :
    asyncUpdateData env last now =
      (Except.error PyErr.updateFailed, connTrace env, last) := by
  rcases hic : env.isConnected with _ | _
  · have hdc : env.deviceFound = true ∧ env.connectRes = Except.ok true := by
      rcases hconn with hx | hx
      · rw [hic] at hx; cases hx
      · exact hx
    have hfd := findDeviceM_connect_true env hdc.1 hdc.2 [] last
    obtain ⟨e, hf⟩ := fetchAndStore_fail_pre env now
      [Event.closeStale, Event.connectAttempt] last h
    simp [asyncUpdateData, updateDataM, catchBle, pollM_bind_def, pollBind,
      pollM_pure_def, pollPure, hic, hfd, hf, connTrace]
  · obtain ⟨e, hf⟩ := fetchAndStore_fail_pre env now [] last h
    simp [asyncUpdateData, updateDataM, catchBle, pollM_bind_def, pollBind,
      pollM_pure_def, pollPure, hic, hf, connTrace]

lemma poll_fail_disconnect (env : PollEnv) (last : Option Int) (now : Int)
    (bv cv mv sv av ev nv : Option PyVal) (stv : Dict) (e : BleErr)
    (hconn : connPhaseOk env)
    (hb : env.batteryLevel = Except.ok bv) (hch : env.isCharging = Except.ok cv)
    (hmo : env.mowerMode = Except.ok mv) (hst : env.mowerState = Except.ok sv)
    (hac : env.mowerActivity = Except.ok av) (her : env.mowerError = Except.ok ev)
    (hns : env.nextStartTime = Except.ok nv) (hstats : env.statistics = Except.ok stv)
    (hd : env.disconnectRes = Except.error e) :
    asyncUpdateData env last now =
      (Except.error PyErr.updateFailed, connTrace env, some now) := by
  rcases hic : env.isConnected with _ | _
  · have hdc : env.deviceFound = true ∧ env.connectRes = Except.ok true := by
      rcases hconn with hx | hx
      · rw [hic] at hx; cases hx
      · exact hx
    have hfd := findDeviceM_connect_true env hdc.1 hdc.2 [] last
    have hf := fetchAndStore_fail_disconnect env now
      [Event.closeStale, Event.connectAttempt] last bv cv mv sv av ev nv stv e
      hb hch hmo hst hac her hns hstats hd
    simp [asyncUpdateData, updateDataM, catchBle, pollM_bind_def, pollBind,
      pollM_pure_def, pollPure, hic, hfd, hf, connTrace]
  · have hf := fetchAndStore_fail_disconnect env now [] last bv cv mv sv av ev nv stv e
      hb hch hmo hst hac her hns hstats hd
    simp [asyncUpdateData, updateDataM, catchBle, pollM_bind_def, pollBind,
      pollM_pure_def, pollPure, hic, hf, connTrace]

lemma exceptOk_false_iff {ε α : Type} (r : Except ε α) :
    exceptOk r = false ↔ ∃ e, r = Except.error e := by
  cases r <;> simp [exceptOk]

/-- C2: the coordinator translates every device/transport error into the
framework's failure type.  `_async_update_data` raises `UpdateFailed` exactly when
the connection phase or one of the awaited calls fails, and it never raises
anything else; `_async_find_device` raises `UpdateFailed` exactly when no BLE
device is found, when `mower.connect` returns false, or when connecting raises
`TimeoutError`/`BleakError`; when the connection phase and every call succeed, the
poll returns the fetched data dict. -/
theorem coordinator_error_translation (env : PollEnv) (last : Option Int) (now : Int) :
    ((asyncUpdateData env last now).1 = Except.error PyErr.updateFailed ↔
      ¬(connPhaseOk env ∧ allCallsOk env)) ∧
    ((asyncUpdateData env last now).1 = Except.error PyErr.updateFailed ∨
      ∃ d, (asyncUpdateData env last now).1 = Except.ok d) ∧
    (asyncFindDevice env = Except.error PyErr.updateFailed ↔
      (env.deviceFound = false ∨ env.connectRes = Except.ok false ∨
        ∃ e, env.connectRes = Except.error e)) ∧
    (connPhaseOk env → allCallsOk env →
      ∃ d, (asyncUpdateData env last now).1 = Except.ok d) := by
  have hfind : asyncFindDevice env = Except.error PyErr.updateFailed ↔
      (env.deviceFound = false ∨ env.connectRes = Except.ok false ∨
        ∃ e, env.connectRes = Except.error e) := by
    rcases hdf : env.deviceFound with _ | _
    · have h := findDeviceM_notFound env hdf [] none
      simp [asyncFindDevice, h, hdf]
    · rcases hc : env.connectRes with e | b
      · have h := findDeviceM_connect_err env e hdf hc [] none
        simp [asyncFindDevice, h, hdf, hc]
      · rcases b with _ | _
        · have h := findDeviceM_connect_false env hdf hc [] none
          simp [asyncFindDevice, h, hdf, hc]
        · have h := findDeviceM_connect_true env hdf hc [] none
          simp [asyncFindDevice, h, hdf, hc]
  by_cases hca : connPhaseOk env ∧ allCallsOk env
  · obtain ⟨hconn, ⟨hf1, hf2, hf3, hf4, hf5, hf6, hf7, hf8⟩, hdisc⟩ := hca
    obtain ⟨bv, hb⟩ := (exceptOk_iff _).1 hf1
    obtain ⟨cv, hch⟩ := (exceptOk_iff _).1 hf2
    obtain ⟨mv, hmo⟩ := (exceptOk_iff _).1 hf3
    obtain ⟨sv, hst⟩ := (exceptOk_iff _).1 hf4
    obtain ⟨av, hac⟩ := (exceptOk_iff _).1 hf5
    obtain ⟨ev, her⟩ := (exceptOk_iff _).1 hf6
    obtain ⟨nv, hns⟩ := (exceptOk_iff _).1 hf7
    obtain ⟨stv, hstats⟩ := (exceptOk_iff _).1 hf8
    obtain ⟨u, hd⟩ := (exceptOk_iff _).1 hdisc
    cases u
    have hok : ∃ d, (asyncUpdateData env last now).1 = Except.ok d := by
      rcases hic : env.isConnected with _ | _
      · have hdc : env.deviceFound = true ∧ env.connectRes = Except.ok true := by
          rcases hconn with hx | hx
          · rw [hic] at hx; cases hx
          · exact hx
        exact ⟨_, by rw [poll_ok_reconnected env last now bv cv mv sv av ev nv stv
          hic hdc.1 hdc.2 hb hch hmo hst hac her hns hstats hd]⟩
      · exact ⟨_, by rw [poll_ok_connected env last now bv cv mv sv av ev nv stv
          hic hb hch hmo hst hac her hns hstats hd]⟩
    refine ⟨⟨fun h => ?_, fun h => (absurd (show connPhaseOk env ∧ allCallsOk env
      from ⟨hconn, ⟨hf1, hf2, hf3, hf4, hf5, hf6, hf7, hf8⟩, hdisc⟩) h)⟩,
      Or.inr hok, hfind, fun _ _ => hok⟩
    rcases hok with ⟨d, hd'⟩
    rw [hd'] at h
    cases h
  · have herr : (asyncUpdateData env last now).1 = Except.error PyErr.updateFailed := by
      by_cases hconn : connPhaseOk env
      · by_cases hfetch : fetchCallsOk env
        · rcases hdx : env.disconnectRes with e | u
          · obtain ⟨hf1, hf2, hf3, hf4, hf5, hf6, hf7, hf8⟩ := hfetch
            obtain ⟨bv, hb⟩ := (exceptOk_iff _).1 hf1
            obtain ⟨cv, hch⟩ := (exceptOk_iff _).1 hf2
            obtain ⟨mv, hmo⟩ := (exceptOk_iff _).1 hf3
            obtain ⟨sv, hst⟩ := (exceptOk_iff _).1 hf4
            obtain ⟨av, hac⟩ := (exceptOk_iff _).1 hf5
            obtain ⟨ev, her⟩ := (exceptOk_iff _).1 hf6
            obtain ⟨nv, hns⟩ := (exceptOk_iff _).1 hf7
            obtain ⟨stv, hstats⟩ := (exceptOk_iff _).1 hf8
            rw [poll_fail_disconnect env last now bv cv mv sv av ev nv stv e
              hconn hb hch hmo hst hac her hns hstats hdx]
          · exact absurd ⟨hconn, hfetch, by rw [hdx]; rfl⟩ hca
        · rw [poll_fail_fetch env last now hconn hfetch]
      · obtain ⟨tr, hres⟩ := poll_fail_noConn env last now hconn
        rw [hres]
    exact ⟨⟨fun _ => hca, fun _ => herr⟩, Or.inl herr, hfind,
      fun h1 h2 => absurd ⟨h1, h2⟩ hca⟩

/-- C5: a poll never initiates a new connection while the mower is already
connected (no stale-connection cleanup and no connect attempt happen when
`mower.is_connected()` is true), and every successful poll ends with a disconnect
as its last lifecycle event before returning the data. -/
theorem poll_connection_lifecycle (env : PollEnv) (last : Option Int) (now : Int) :
    (env.isConnected = true →
      Event.closeStale ∉ (asyncUpdateData env last now).2.1 ∧
      Event.connectAttempt ∉ (asyncUpdateData env last now).2.1) ∧
    (∀ d, (asyncUpdateData env last now).1 = Except.ok d →
      (asyncUpdateData env last now).2.1.getLast? = some Event.disconnected) := by
  by_cases hconn : connPhaseOk env
  · by_cases hfetch : fetchCallsOk env
    · rcases hdx : env.disconnectRes with e | u
      · obtain ⟨hf1, hf2, hf3, hf4, hf5, hf6, hf7, hf8⟩ := hfetch
        obtain ⟨bv, hb⟩ := (exceptOk_iff _).1 hf1
        obtain ⟨cv, hch⟩ := (exceptOk_iff _).1 hf2
        obtain ⟨mv, hmo⟩ := (exceptOk_iff _).1 hf3
        obtain ⟨sv, hst⟩ := (exceptOk_iff _).1 hf4
        obtain ⟨av, hac⟩ := (exceptOk_iff _).1 hf5
        obtain ⟨ev, her⟩ := (exceptOk_iff _).1 hf6
        obtain ⟨nv, hns⟩ := (exceptOk_iff _).1 hf7
        obtain ⟨stv, hstats⟩ := (exceptOk_iff _).1 hf8
        have hres := poll_fail_disconnect env last now bv cv mv sv av ev nv stv e
          hconn hb hch hmo hst hac her hns hstats hdx
        rw [hres]
        exact ⟨fun hic => by simp [connTrace, hic], fun d hd' => by cases hd'⟩
      · obtain ⟨hf1, hf2, hf3, hf4, hf5, hf6, hf7, hf8⟩ := hfetch
        obtain ⟨bv, hb⟩ := (exceptOk_iff _).1 hf1
        obtain ⟨cv, hch⟩ := (exceptOk_iff _).1 hf2
        obtain ⟨mv, hmo⟩ := (exceptOk_iff _).1 hf3
        obtain ⟨sv, hst⟩ := (exceptOk_iff _).1 hf4
        obtain ⟨av, hac⟩ := (exceptOk_iff _).1 hf5
        obtain ⟨ev, her⟩ := (exceptOk_iff _).1 hf6
        obtain ⟨nv, hns⟩ := (exceptOk_iff _).1 hf7
        obtain ⟨stv, hstats⟩ := (exceptOk_iff _).1 hf8
        cases u
        rcases hic : env.isConnected with _ | _
        · have hdc : env.deviceFound = true ∧ env.connectRes = Except.ok true := by
            rcases hconn with hx | hx
            · rw [hic] at hx; cases hx
            · exact hx
          have hres := poll_ok_reconnected env last now bv cv mv sv av ev nv stv
            hic hdc.1 hdc.2 hb hch hmo hst hac her hns hstats hdx
          rw [hres]
          exact ⟨fun h => absurd h (by simp [hic]), fun d _ => rfl⟩
        · have hres := poll_ok_connected env last now bv cv mv sv av ev nv stv
            hic hb hch hmo hst hac her hns hstats hdx
          rw [hres]
          exact ⟨fun _ => by simp, fun d _ => rfl⟩
    · have hres := poll_fail_fetch env last now hconn hfetch
      rw [hres]
      exact ⟨fun hic => by simp [connTrace, hic], fun d hd' => by cases hd'⟩
  · obtain ⟨tr, hres⟩ := poll_fail_noConn env last now hconn
    rw [hres]
    refine ⟨fun hic => absurd (Or.inl hic) hconn, fun d hd' => by cases hd'⟩

/-- C8 (amended): `_last_successful_update` is left unchanged whenever the
connection phase or any data/statistics fetch fails, and is set to the poll time
whenever every data field and the statistics were fetched successfully — even if
the final disconnect then raises and the poll fails with `UpdateFailed` after the
timestamp was already refreshed. -/
theorem last_update_follows_fetch (env : PollEnv) (last : Option Int) (now : Int) :
    (¬ connPhaseOk env → (asyncUpdateData env last now).2.2 = last) ∧
    (connPhaseOk env → ¬ fetchCallsOk env →
      (asyncUpdateData env last now).2.2 = last) ∧
    (connPhaseOk env → fetchCallsOk env →
      (asyncUpdateData env last now).2.2 = some now) := by
  refine ⟨fun hconn => ?_, fun hconn hfetch => ?_, fun hconn hfetch => ?_⟩
  · obtain ⟨tr, hres⟩ := poll_fail_noConn env last now hconn
    rw [hres]
  · rw [poll_fail_fetch env last now hconn hfetch]
  · obtain ⟨hf1, hf2, hf3, hf4, hf5, hf6, hf7, hf8⟩ := hfetch
    obtain ⟨bv, hb⟩ := (exceptOk_iff _).1 hf1
    obtain ⟨cv, hch⟩ := (exceptOk_iff _).1 hf2
    obtain ⟨mv, hmo⟩ := (exceptOk_iff _).1 hf3
    obtain ⟨sv, hst⟩ := (exceptOk_iff _).1 hf4
    obtain ⟨av, hac⟩ := (exceptOk_iff _).1 hf5
    obtain ⟨ev, her⟩ := (exceptOk_iff _).1 hf6
    obtain ⟨nv, hns⟩ := (exceptOk_iff _).1 hf7
    obtain ⟨stv, hstats⟩ := (exceptOk_iff _).1 hf8
    rcases hdx : env.disconnectRes with e | u
    · rw [poll_fail_disconnect env last now bv cv mv sv av ev nv stv e
        hconn hb hch hmo hst hac her hns hstats hdx]
    · cases u
      rcases hic : env.isConnected with _ | _
      · have hdc : env.deviceFound = true ∧ env.connectRes = Except.ok true := by
          rcases hconn with hx | hx
          · rw [hic] at hx; cases hx
          · exact hx
        rw [poll_ok_reconnected env last now bv cv mv sv av ev nv stv
          hic hdc.1 hdc.2 hb hch hmo hst hac her hns hstats hdx]
      · rw [poll_ok_connected env last now bv cv mv sv av ev nv stv
          hic hb hch hmo hst hac her hns hstats hdx]

lemma dlookup_dictInsert_self (d : Dict) (k : String) (v : Option PyVal) :
    dlookup (dictInsert d k v) k = some v := by
  induction d with
  | nil => simp [dictInsert, dlookup]
  | cons p rest ih =>
    obtain ⟨k', v'⟩ := p
    by_cases h : k' = k
    · simp [dictInsert, h, dlookup]
    · simp [dictInsert, h, dlookup, ih]

lemma dlookup_dictInsert_other (d : Dict) (k k' : String) (v : Option PyVal)
    (h : k ≠ k') : dlookup (dictInsert d k v) k' = dlookup d k' := by
  induction d with
  | nil => simp [dictInsert, dlookup, h]
  | cons p rest ih =>
    obtain ⟨kh, vh⟩ := p
    by_cases hk : kh = k
    · simp [dictInsert, hk, dlookup, h]
    · simp [dictInsert, hk, dlookup, ih]

lemma dlookup_dictUpdate_notMem (u : Dict) : ∀ (d : Dict) (k : String),
    (∀ p ∈ u, (p : String × Option PyVal).1 ≠ k) →
    dlookup (dictUpdate d u) k = dlookup d k := by
  induction u with
  | nil => intro d k _; rfl
  | cons p rest ih =>
    intro d k h
    have hstep : dictUpdate d (p :: rest) = dictUpdate (dictInsert d p.1 p.2) rest := rfl
    rw [hstep, ih _ k (fun q hq => h q (List.mem_cons_of_mem _ hq)),
      dlookup_dictInsert_other _ _ _ _ (h p (List.mem_cons_self _ _))]

lemma dlookup_dictUpdate_isSome (u : Dict) : ∀ (d : Dict) (k : String),
    (∃ v, ((k, v) : String × Option PyVal) ∈ u) →
    (dlookup (dictUpdate d u) k).isSome = true := by
  induction u with
  | nil =>
    rintro d k ⟨v, hv⟩
    cases hv
  | cons p rest ih =>
    rintro d k ⟨v, hv⟩
    have hstep : dictUpdate d (p :: rest) = dictUpdate (dictInsert d p.1 p.2) rest := rfl
    rcases List.mem_cons.1 hv with h | h
    · by_cases hr : ∃ w, ((k, w) : String × Option PyVal) ∈ rest
      · exact ih _ k hr
      · have hne : ∀ q ∈ rest, (q : String × Option PyVal).1 ≠ k := by
          intro q hq hqe
          exact hr ⟨q.2, by rw [← hqe]; exact hq⟩
        have hp1 : p.1 = k := by rw [← h]
        rw [hstep, dlookup_dictUpdate_notMem rest _ k hne, hp1,
          dlookup_dictInsert_self]
        rfl
    · exact hstep ▸ ih (dictInsert d p.1 p.2) k ⟨v, h⟩

/-- C6: whenever the connection phase and every library call succeed, the dict
returned by `_async_update_data` binds each of the seven fixed keys to the value
of the corresponding mower call and additionally contains every key of the
statistics dict (the statistics keys are distinct from the seven fixed keys, as
they are in the external library); and a sensor entity reads its state from this
dict by its descriptor key. -/
theorem poll_dict_contents (env : PollEnv) (last : Option Int) (now : Int)
    (bv cv mv sv av ev nv : Option PyVal) (stv : Dict)
    (hconn : connPhaseOk env)
    (hb : env.batteryLevel = Except.ok bv) (hch : env.isCharging = Except.ok cv)
    (hmo : env.mowerMode = Except.ok mv) (hst : env.mowerState = Except.ok sv)
    (hac : env.mowerActivity = Except.ok av) (her : env.mowerError = Except.ok ev)
    (hns : env.nextStartTime = Except.ok nv) (hstats : env.statistics = Except.ok stv)
    (hd : env.disconnectRes = Except.ok ())
    (hkeys : ∀ p ∈ stv, (p : String × Option PyVal).1 ∉
      (["battery_level", "is_charging", "mode", "state", "activity", "error",
        "next_start_time"] : List String)) :
    ∃ d, (asyncUpdateData env last now).1 = Except.ok d ∧
      dlookup d "battery_level" = some bv ∧
      dlookup d "is_charging" = some cv ∧
      dlookup d "mode" = some mv ∧
      dlookup d "state" = some sv ∧
      dlookup d "activity" = some av ∧
      dlookup d "error" = some ev ∧
      dlookup d "next_start_time" = some nv ∧
      (∀ p ∈ stv, (dlookup d (p : String × Option PyVal).1).isSome = true) ∧
      (∀ (data : Dict) (key : String) (v : Option PyVal),
        dlookup data key = some v → (sensorState data key).returned = v) := by
  have hres : (asyncUpdateData env last now).1 = Except.ok (dictUpdate
      [("battery_level", bv), ("is_charging", cv), ("mode", mv), ("state", sv),
        ("activity", av), ("error", ev), ("next_start_time", nv)] stv) := by
    rcases hic : env.isConnected with _ | _
    · have hdc : env.deviceFound = true ∧ env.connectRes = Except.ok true := by
        rcases hconn with hx | hx
        · rw [hic] at hx; cases hx
        · exact hx
      rw [poll_ok_reconnected env last now bv cv mv sv av ev nv stv
        hic hdc.1 hdc.2 hb hch hmo hst hac her hns hstats hd]
    · rw [poll_ok_connected env last now bv cv mv sv av ev nv stv
        hic hb hch hmo hst hac her hns hstats hd]
  have hcore : ∀ k : String,
      k ∈ (["battery_level", "is_charging", "mode", "state", "activity", "error",
        "next_start_time"] : List String) →
      dlookup (dictUpdate
        [("battery_level", bv), ("is_charging", cv), ("mode", mv), ("state", sv),
          ("activity", av), ("error", ev), ("next_start_time", nv)] stv) k =
      dlookup
        [("battery_level", bv), ("is_charging", cv), ("mode", mv), ("state", sv),
          ("activity", av), ("error", ev), ("next_start_time", nv)] k := by
    intro k hk
    exact dlookup_dictUpdate_notMem stv _ k
      (fun p hp hpk => (hkeys p hp) (hpk ▸ hk))
  refine ⟨_, hres, ?_, ?_, ?_, ?_, ?_, ?_, ?_, ?_, ?_⟩
  · rw [hcore "battery_level" (by decide)]; rfl
  · rw [hcore "is_charging" (by decide)]; rfl
  · rw [hcore "mode" (by decide)]; rfl
  · rw [hcore "state" (by decide)]; rfl
  · rw [hcore "activity" (by decide)]; rfl
  · rw [hcore "error" (by decide)]; rfl
  · rw [hcore "next_start_time" (by decide)]; rfl
  · intro p hp
    exact dlookup_dictUpdate_isSome stv _ p.1 ⟨p.2, hp⟩
  · intro data key v h
    simp [sensorState, h]

/-- C7: setup registers exactly one lawn-mower entity, with unique id equal to the
device address, and one sensor entity per `MOWER_SENSORS` descriptor — 14 sensors,
each with unique id `"automower_<formatted mac>_<descriptor key>"`. -/
theorem setup_registers_entities (address formattedMac : String) :
    lawnMowerSetupEntry address = [address] ∧
    (lawnMowerSetupEntry address).length = 1 ∧
    MOWER_SENSORS.length = 14 ∧
    (sensorSetupEntry formattedMac).length = 14 ∧
    (sensorSetupEntry formattedMac).map (fun e => e.uniqueId) =
      MOWER_SENSORS.map (fun d => "automower_" ++ formattedMac ++ "_" ++ d.key) ∧
    MOWER_SENSORS.map (fun d => d.key) =
      ["battery_level", "is_charging", "mode", "state", "activity", "error",
        "next_start_time", "totalRunningTime", "totalCuttingTime",
        "totalChargingTime", "totalSearchingTime", "numberOfCollisions",
        "numberOfChargingCycles", "cuttingBladeUsageTime"] := by
  exact ⟨rfl, rfl, rfl, rfl, rfl, rfl⟩

/-- Concrete instance of `coordinator_error_translation`: on `okEnv` the poll
returns a data dict. -/
theorem coordinator_error_translation_witness :
    ∃ d, (asyncUpdateData okEnv none 7).1 = Except.ok d :=
  (coordinator_error_translation okEnv none 7).2.2.2 (Or.inr ⟨rfl, rfl⟩)
    ⟨⟨rfl, rfl, rfl, rfl, rfl, rfl, rfl, rfl⟩, rfl⟩

/-- Concrete instance of `poll_connection_lifecycle`: on the already-connected
`okEnvConnected` no connect attempt happens and the successful poll ends with a
disconnect. -/
theorem poll_connection_lifecycle_witness :
    Event.closeStale ∉ (asyncUpdateData okEnvConnected none 7).2.1 ∧
    (asyncUpdateData okEnvConnected none 7).2.1.getLast? = some Event.disconnected :=
  ⟨((poll_connection_lifecycle okEnvConnected none 7).1 rfl).1,
    (poll_connection_lifecycle okEnvConnected none 7).2 _ rfl⟩

/-- Concrete instance of `last_update_follows_fetch`: on `disconnectFailEnv` the
timestamp is refreshed because every fetch succeeded. -/
theorem last_update_follows_fetch_witness :
    (asyncUpdateData disconnectFailEnv none 5).2.2 = some 5 :=
  (last_update_follows_fetch disconnectFailEnv none 5).2.2 (Or.inl rfl)
    ⟨rfl, rfl, rfl, rfl, rfl, rfl, rfl, rfl⟩

/-- Counterexample to claim C8 as stated: on `disconnectFailEnv` the poll raises
`UpdateFailed` (the final disconnect raises `BleakError`), yet
`_last_successful_update` changes from `None` to the poll time. -/
theorem failed_poll_refreshes_timestamp :
    (asyncUpdateData disconnectFailEnv none 5).1 = Except.error PyErr.updateFailed ∧
    (asyncUpdateData disconnectFailEnv none 5).2.2 = some 5 ∧
    (some (5 : Int) ≠ (none : Option Int)) := by
  exact ⟨rfl, rfl, by decide⟩

/-- Concrete instance of `poll_dict_contents` on `okEnv`. -/
theorem poll_dict_contents_witness :
    ∃ d, (asyncUpdateData okEnv none 7).1 = Except.ok d ∧
      dlookup d "battery_level" = some (some (PyVal.vInt 88)) ∧
      dlookup d "is_charging" = some (some (PyVal.vBool true)) ∧
      dlookup d "mode" = some (some (PyVal.vInt 1)) ∧
      dlookup d "state" = some (some (PyVal.vState MowerState.RESTRICTED)) ∧
      dlookup d "activity" = some (some (PyVal.vActivity MowerActivity.CHARGING)) ∧
      dlookup d "error" = some none ∧
      dlookup d "next_start_time" = some (some (PyVal.vTime 3600)) ∧
      (∀ p ∈ ([("totalRunningTime", some (PyVal.vInt 10)),
          ("numberOfCollisions", some (PyVal.vInt 2))] : Dict),
        (dlookup d (p : String × Option PyVal).1).isSome = true) ∧
      (∀ (data : Dict) (key : String) (v : Option PyVal),
        dlookup data key = some v → (sensorState data key).returned = v) :=
  poll_dict_contents okEnv none 7 (some (PyVal.vInt 88)) (some (PyVal.vBool true))
    (some (PyVal.vInt 1)) (some (PyVal.vState MowerState.RESTRICTED))
    (some (PyVal.vActivity MowerActivity.CHARGING)) none (some (PyVal.vTime 3600))
    [("totalRunningTime", some (PyVal.vInt 10)),
      ("numberOfCollisions", some (PyVal.vInt 2))]
    (Or.inr ⟨rfl, rfl⟩) rfl rfl rfl rfl rfl rfl rfl rfl rfl (by decide)

end Automower

